import Mathlib

/-!
Shallow embedding of the smart_travelplanner orchestration core, translated
from the Python source:

  * src/core/router.py        (router_node)
  * src/agents/reasoning.py   (reasoning_node)
  * src/core/follow_up.py     (ACTION_REGISTRY, get_available_actions,
                               generate_destination_suggestions,
                               generate_follow_up_suggestions,
                               handle_user_selection)
  * src/core/destination_planner.py (handle_destination_selection)
  * src/core/graph.py         (route_after_* functions, build_graph wiring)
  * src/agents/flight_agent.py (flight_agent_node)
  * src/main.py               (ItineraryPlannerSystem.process_query,
                               handle_suggestion_selection, _extract_response)

External dependencies (the LLM classifier calls, the flight-search API, the
compiled LangGraph runner's step budget) are modelled as explicit oracle
parameters: `none` for an oracle models the corresponding call raising an
exception, which the Python code catches in its `except` blocks.  LangGraph
state-channel merging: the project's GraphState declares no reducers (each
node returns full `messages`/`tool_results` values built by spreading the old
ones), so a node delta replaces each key it names and leaves the others
unchanged; `applyDelta` implements exactly that.
-/

namespace TravelPlanner

/-- Does `pat` occur as a contiguous run inside the character list? -/
def charsContain (pat : List Char) : List Char → Bool
  | [] => pat.isEmpty
  | c :: rest => pat.isPrefixOf (c :: rest) || charsContain pat rest

/-- Python's `needle in haystack` substring test on strings. -/
def containsSubstr (hay pat : String) : Bool :=
  charsContain pat.toList hay.toList

/-- Python `str.lower()`, over the character list. -/
def toLowerStr (s : String) : String := ⟨s.data.map Char.toLower⟩

/-- Python `str.upper()`, over the character list. -/
def toUpperStr (s : String) : String := ⟨s.data.map Char.toUpper⟩

/-- Python `str.strip()`, over the character list. -/
def trimStr (s : String) : String :=
  ⟨((s.data.dropWhile Char.isWhitespace).reverse.dropWhile Char.isWhitespace).reverse⟩

/-- Python `str.startswith(pre)`, over the character list. -/
def startsWithStr (s pre : String) : Bool := pre.data.isPrefixOf s.data

/-- String-keyed dictionary, as used for `tool_results`. -/
def Dict (α : Type) : Type := String → Option α

/-- The empty dictionary `{}`. -/
def Dict.empty {α : Type} : Dict α := fun _ => none

/-- Python dict spread `{**d, k: v}` restricted to one added key. -/
def Dict.insert {α : Type} (d : Dict α) (k : String) (v : α) : Dict α :=
  fun q => if q = k then some v else d q

/-- Python `k in d`. -/
def Dict.hasKey {α : Type} (d : Dict α) (k : String) : Bool :=
  (d k).isSome

/-- One destination record from `tool_results["destination_recommendations"]
["recommendations"]` (destination_planner.py); only the fields the
orchestration core reads are carried. -/
structure Destination where
  destination : String
  country : String := ""
  estimatedDailyBudget : Int := 150
  familyFriendlyScore : Int := 5
deriving DecidableEq, Repr

/-- Flight-search style payloads stored in `tool_results`.  The contents of
domain-handler results are opaque to the orchestrator (out-of-scope
handlers), so they are carried as an abstract tag; destination
recommendations are structured because `handle_destination_selection` and
`generate_destination_suggestions` read them.  `pynone` models a Python
`None` stored under a key (the key is then still present). -/
inductive Payload where
  | recs (recommendations : List Destination)
  | raw (tag : Nat)
  | pynone
deriving DecidableEq, Repr

/-- A tokenized follow-up suggestion as built in follow_up.py
(`generate_follow_up_suggestions` / `generate_destination_suggestions`).
`agent` is absent for destination-phase tokens; `destination` and
`destinationData` are present only for `select_destination` tokens. -/
structure Suggestion where
  token : String
  action : String
  agent : Option String := none
  description : String := ""
  priority : Nat := 0
  destination : Option String := none
  destinationData : Option Destination := none
deriving DecidableEq, Repr

/-- Conversation message roles (HumanMessage / AIMessage). -/
inductive Role where
  | human
  | ai
deriving DecidableEq, Repr

/-- A conversation message.  The `additional_kwargs` entries the core reads
are flattened into optional fields: `suggestions` (offered token batch),
`selectedToken` (echo of a chosen token), `routeDecision` (router audit
annotation). -/
structure Message where
  role : Role
  content : String
  suggestions : Option (List Suggestion) := none
  selectedToken : Option String := none
  routeDecision : Option String := none
deriving DecidableEq, Repr

/-- `AIMessage(content=...)`. -/
def Message.mkAi (content : String) : Message := { role := .ai, content := content }

/-- `HumanMessage(content=..., additional_kwargs={"selected_token": tok})`. -/
def Message.mkHumanSel (content tok : String) : Message :=
  { role := .human, content := content, selectedToken := some tok }

/-- The classifier reply parsed by `reasoning_node` (the JSON object the
validation LLM returns): fields read by the node. -/
structure ReasoningResult where
  validationPassed : Bool := true
  issues : List String := []
  recommendations : List String := []
  nextAction : Option String := none
  reasoning : String := ""
deriving DecidableEq, Repr

/-- Travel requirements extracted by `extract_travel_requirements`
(destination_planner.py lines 98-133).  The extraction JSON schema fixes the
keys: duration_days, region_preference, budget, travel_party, interests,
constraints, specific_attractions, flexible_dates, preferred_season — in
particular there is **no** "destination" key, which matters when this record
is dict-spread into `user_preferences` by `handle_destination_selection`.
Fields not read by the orchestration core are summarised. -/
structure Requirements where
  durationDays : Option Nat := none
  regionPreference : Option String := none
  budget : Option String := none
  interests : List String := []
  extra : Nat := 0
deriving DecidableEq, Repr

/-- A budget value in `user_preferences`: numeric when taken from a
destination record's `estimated_daily_budget`, string when overridden by the
requirements spread. -/
inductive BudgetVal where
  | num (n : Int)
  | str (s : String)
deriving DecidableEq, Repr

/-- `user_preferences`.  In the source this is a plain dict; the keys the
core reads/writes are `destination`, `budget`, `family_friendly`, plus
whatever the `**requirements` spread contributes (see `Requirements`). -/
structure Prefs where
  destination : Option String := none
  budget : Option BudgetVal := none
  familyFriendly : Option Bool := none
  requirements : Requirements := {}
deriving DecidableEq, Repr

/-- `metadata` entries read or written by the orchestration core.  Reads in
the source always go through `.get(key, default)`, so absence of a key and
the default value are indistinguishable; the structure stores the defaulted
views.  `reasoningResult` keeps the last stored classifier verdict. -/
structure Metadata where
  reasoningIterations : Nat := 0
  reasoningForcedEnd : Bool := false
  reasoningResult : Option ReasoningResult := none
  preplannerPhase : Bool := false
  destinationSelected : Bool := false
  selectedDestination : Option Destination := none
  requirements : Requirements := {}
deriving DecidableEq, Repr

/-- One plan step; `route_after_planner` and the reasoning context only read
`action` and `executed`. -/
structure PlanStep where
  action : String
  executed : Bool := false
deriving DecidableEq, Repr

/-- An execution plan (`plan` key of the state). -/
structure Plan where
  steps : List PlanStep := []
deriving DecidableEq, Repr

/-- A composed itinerary (`current_itinerary`); the orchestration core only
tests its presence and reads `duration_days`. -/
structure Itinerary where
  durationDays : Nat := 0
deriving DecidableEq, Repr

/-- The GraphState session record threaded through every node. -/
structure State where
  messages : List Message := []
  plan : Option Plan := none
  currentItinerary : Option Itinerary := none
  userPreferences : Prefs := {}
  nextAgent : String := ""
  toolResults : Dict Payload := Dict.empty
  metadata : Metadata := {}
  autonomousExecution : Bool := false

/-- A node's partial state update.  Each node returns a Python dict naming
only some state keys; with no channel reducers declared, LangGraph replaces
exactly the named keys.  `none` means the key is absent from the delta. -/
structure Delta where
  messages : Option (List Message) := none
  plan : Option (Option Plan) := none
  currentItinerary : Option (Option Itinerary) := none
  userPreferences : Option Prefs := none
  nextAgent : Option String := none
  toolResults : Option (Dict Payload) := none
  metadata : Option Metadata := none

/-- Merge a node delta into the state: every key named by the delta is
replaced, every other key is kept (LangGraph default channel semantics). -/
def applyDelta (s : State) (d : Delta) : State :=
  { messages := d.messages.getD s.messages
    plan := d.plan.getD s.plan
    currentItinerary := d.currentItinerary.getD s.currentItinerary
    userPreferences := d.userPreferences.getD s.userPreferences
    nextAgent := d.nextAgent.getD s.nextAgent
    toolResults := d.toolResults.getD s.toolResults
    metadata := d.metadata.getD s.metadata
    autonomousExecution := s.autonomousExecution }

/-! ## Router (src/core/router.py, router_node) -/

/-- The destination-help trigger phrases scanned by `router_node`
(router.py lines 56-61). -/
def helpPhrases : List String :=
  ["don't know where", "help me choose", "suggest destination",
   "where should i go", "recommend a place", "help me decide",
   "not sure where", "uncertain about destination"]

/-- The valid routing targets accepted from the classifier
(router.py line 121). -/
def validAgents : List String :=
  ["DESTINATION_PLANNER", "PLANNER", "FLIGHT", "HOTEL", "ACTIVITY",
   "ITINERARY", "REASONING", "END"]

/-- `router_node(state)`.  `classify` is the routing LLM call:
`some reply` is the raw reply text, `none` models the call raising (caught
by the node's `except`, which returns `next_agent = "END"` plus an error
message).  Mirrors router.py lines 34-146: empty history returns exactly
`{"next_agent": "END"}`; the `destination_selected` flag short-circuits to
PLANNER; the help-phrase / preplanner check routes to DESTINATION_PLANNER;
otherwise the classifier reply is normalised and corrected to "PLANNER" when
outside the valid set. -/
def routerNode (s : State) (classify : Option String) : Delta :=
  match s.messages.getLast? with
  | none => { nextAgent := some "END" }
  | some lastMessage =>
    let metadata := s.metadata
    let destination := s.userPreferences.destination
    let messageContent := toLowerStr lastMessage.content
    let needsDestinationHelp :=
      (destination.isNone &&
        helpPhrases.any (fun p => containsSubstr messageContent p)) ||
      metadata.preplannerPhase
    if metadata.destinationSelected then
      { nextAgent := some "PLANNER", messages := some s.messages }
    else if needsDestinationHelp then
      { nextAgent := some "DESTINATION_PLANNER",
        messages := some (s.messages ++
          [Message.mkAi "Let me help you find the perfect destination..."]) }
    else
      match classify with
      | none =>
        { nextAgent := some "END",
          messages := some (s.messages ++ [Message.mkAi "Router error: classifier failure"]) }
      | some reply =>
        let decision := toUpperStr (trimStr reply)
        let decision := if validAgents.contains decision then decision else "PLANNER"
        { messages := some (s.messages ++
            [{ role := .ai, content := "Routing to " ++ decision ++ " agent...",
               routeDecision := some decision }])
          nextAgent := some decision }

/-! ## Validator (src/agents/reasoning.py, reasoning_node) -/

/-- `MAX_REASONING_ITERATIONS` (reasoning.py line 40). -/
def MAX_REASONING_ITERATIONS : Nat := 2

/-- The response text assembled by reasoning.py lines 130-142. -/
def reasoningResponseText (r : ReasoningResult) : String :=
  let headline := "✓ Validation: " ++ (if r.validationPassed then "Passed" else "Issues found")
  let issueLines := if r.issues.isEmpty then [] else
    "\nIssues identified:" :: r.issues.map (fun i => "  - " ++ i)
  let recLines := if r.recommendations.isEmpty then [] else
    "\nRecommendations:" :: r.recommendations.map (fun rec => "  - " ++ rec)
  String.intercalate "\n"
    (headline :: issueLines ++ recLines ++ ["\nReasoning: " ++ r.reasoning])

/-- `reasoning_node(state)`.  `classify` is the validation LLM call plus
JSON parse: `some r` is a parsed reply, `none` models the call raising or
returning unparseable JSON (both land in the node's `except`, reasoning.py
lines 161-168, whose delta carries no `metadata` key).  The forced-end guard
(lines 42-54) runs before the classifier is consulted; the success path
(lines 146-159) stores the verdict and increments the iteration counter. -/
def reasoningNode (s : State) (classify : Option ReasoningResult) : Delta :=
  let metadata := s.metadata
  let reasoningIterations := metadata.reasoningIterations
  if MAX_REASONING_ITERATIONS ≤ reasoningIterations then
    { messages := some (s.messages ++
        [Message.mkAi "✓ Validation complete. Your itinerary is ready!"])
      nextAgent := some "END"
      metadata := some { metadata with reasoningForcedEnd := true } }
  else
    match classify with
    | none =>
      { messages := some (s.messages ++ [Message.mkAi "Reasoning validation complete."])
        nextAgent := some "END" }
    | some r =>
      { messages := some (s.messages ++ [Message.mkAi (reasoningResponseText r)])
        nextAgent := some (r.nextAction.getD "END")
        metadata := some { metadata with
          reasoningResult := some r
          reasoningIterations := reasoningIterations + 1 } }

/-! ## Action registry and follow-up suggestions (src/core/follow_up.py) -/

/-- One `ACTION_REGISTRY` entry (follow_up.py lines 21-65): id, target
agent, description template, availability predicate over the state. -/
structure ActionEntry where
  id : String
  agent : String
  description : String
  availableWhen : State → Bool

/-- `ACTION_REGISTRY` (follow_up.py lines 21-65), in source order.
Description templates are carried verbatim; the placeholder interpolation
performed by `get_available_actions` is a pure string cosmetic and is not
re-modelled. -/
def ACTION_REGISTRY : List ActionEntry :=
  [ { id := "search_flights", agent := "FLIGHT",
      description := "Search for flight options to {destination}",
      availableWhen := fun s => !(s.toolResults.hasKey "flight_search") },
    { id := "review_flights", agent := "FLIGHT",
      description := "Review the {count} flight options we found",
      availableWhen := fun s => s.toolResults.hasKey "flight_search" },
    { id := "search_hotels", agent := "HOTEL",
      description := "Find accommodation in {destination}",
      availableWhen := fun s => !(s.toolResults.hasKey "hotel_search") },
    { id := "review_hotels", agent := "HOTEL",
      description := "Review the {count} hotel options we found",
      availableWhen := fun s => s.toolResults.hasKey "hotel_search" },
    { id := "search_activities", agent := "ACTIVITY",
      description := "Find activities and attractions in {destination}",
      availableWhen := fun s => !(s.toolResults.hasKey "activity_search") },
    { id := "review_activities", agent := "ACTIVITY",
      description := "Review the {count} activity options we found",
      availableWhen := fun s => s.toolResults.hasKey "activity_search" },
    { id := "modify_itinerary", agent := "ITINERARY",
      description := "Modify your {days}-day itinerary",
      availableWhen := fun s => s.currentItinerary.isSome },
    { id := "create_itinerary", agent := "ITINERARY",
      description := "Create a day-by-day itinerary from the options we found",
      availableWhen := fun s =>
        s.currentItinerary.isNone &&
        (["flight_search", "hotel_search", "activity_search"].any
          (fun key => s.toolResults.hasKey key)) } ]

/-- An available action as returned by `get_available_actions`. -/
structure AvailAction where
  action : String
  agent : String
  description : String
deriving DecidableEq, Repr

/-- `get_available_actions(state)` (follow_up.py lines 68-118): evaluate all
registry predicates against the state and collect the available subset, in
registry order. -/
def getAvailableActions (s : State) : List AvailAction :=
  (ACTION_REGISTRY.filter (fun e => e.availableWhen s)).map
    (fun e => { action := e.id, agent := e.agent, description := e.description })

/-- The recommendations list stored at
`tool_results["destination_recommendations"]["recommendations"]`, with the
source's `.get(..., [])` defaulting. -/
def getRecs (tr : Dict Payload) : List Destination :=
  match tr "destination_recommendations" with
  | some (.recs l) => l
  | _ => []

/-- Result of follow-up generation: the token batch and the user-facing
message carrying it in `additional_kwargs`. -/
structure FollowUpResult where
  suggestions : List Suggestion
  message : Message
deriving DecidableEq, Repr

/-- `generate_destination_suggestions(state)` (follow_up.py lines 121-206):
build D1..D5 selection tokens from the stored recommendations plus a D99
refine option; with no recommendations, fall back to a single A1
refine_search token.  The function's own `except` arm is unreachable here
(its body performs only dict reads). -/
def generateDestinationSuggestions (s : State) : FollowUpResult :=
  let recommendations := getRecs s.toolResults
  if recommendations.isEmpty then
    let fallback : List Suggestion :=
      [{ token := "A1", action := "refine_search",
         description := "Refine my destination search", priority := 1 }]
    { suggestions := fallback,
      message := Message.mkAi "What would you like to do next?" }
  else
    let top := recommendations.take 5
    let dTokens := top.enum.map (fun p =>
      { token := "D" ++ toString (p.1 + 1)
        action := "select_destination"
        destination := some p.2.destination
        description := "Choose " ++ p.2.destination ++ ", " ++ p.2.country
        priority := p.1 + 1
        destinationData := some p.2 : Suggestion })
    let all := dTokens ++
      [{ token := "D99", action := "refine_search",
         description := "Show different options or refine my search",
         priority := 99 }]
    { suggestions := all,
      message :=
        { role := .ai
          content := "\n🌍 Ready to plan your trip! Select a destination:\n"
          suggestions := some all } }

/-- One entry of the ranking classifier's JSON reply
(`{"suggestions": [{"action": ..., "priority": ...}]}`). -/
structure SuggestedAction where
  action : String
  priority : Option Nat := none
deriving DecidableEq, Repr

/-- follow_up.py lines 298-314: match the classifier's proposals against the
available actions; proposals with no match are dropped (with a warning),
matched ones get token `A{i+1}` where `i` is the proposal's index in the
classifier reply. -/
def tokenizeSuggestions (available : List AvailAction)
    (suggested : List SuggestedAction) : List Suggestion :=
  suggested.enum.filterMap (fun p =>
    match available.find? (fun a => a.action = p.2.action) with
    | some matching =>
      some { token := "A" ++ toString (p.1 + 1)
             action := p.2.action
             agent := some matching.agent
             description := matching.description
             priority := p.2.priority.getD (p.1 + 1) }
    | none => none)

/-- The hard-coded fallback batch returned by the `except` arm of
`generate_follow_up_suggestions` (follow_up.py lines 343-368). -/
def defaultFollowUpSuggestions : List Suggestion :=
  [ { token := "A1", action := "search_flights",
      description := "Search for flight options", priority := 1 },
    { token := "A2", action := "search_hotels",
      description := "Find accommodation", priority := 2 },
    { token := "A3", action := "modify_itinerary",
      description := "Modify the itinerary", priority := 3 } ]

/-- `generate_follow_up_suggestions(state)` (follow_up.py lines 209-368).
`classify` is the ranking LLM call plus JSON parse: `some proposals` is a
parsed reply, `none` models the call raising or returning unparseable JSON
(the `except` arm, which returns `defaultFollowUpSuggestions` unchecked).
Branch order follows the source: the preplanner phase takes the destination
path before anything else; an empty available set returns before the
classifier is consulted. -/
def generateFollowUpSuggestions (s : State)
    (classify : Option (List SuggestedAction)) : FollowUpResult :=
  if s.metadata.preplannerPhase then
    generateDestinationSuggestions s
  else
    let available := getAvailableActions s
    if available.isEmpty then
      { suggestions := [],
        message := Message.mkAi
          "Your itinerary is complete! Feel free to ask me anything else." }
    else
      match classify with
      | none =>
        { suggestions := defaultFollowUpSuggestions,
          message := Message.mkAi "What would you like to do next?" }
      | some suggested =>
        let tokenized := tokenizeSuggestions available suggested
        { suggestions := tokenized,
          message :=
            { role := .ai
              content := "\n💡 What would you like to do next?\n"
              suggestions := some tokenized } }

/-! ## Destination selection (src/core/destination_planner.py) -/

/-- `handle_destination_selection(state, selected_destination)`
(destination_planner.py lines 512-554): scan the stored recommendations for
the first whose name contains the chosen name (case-insensitive substring);
on a match rebuild the state with the destination written into
`user_preferences`, `next_agent = "PLANNER"` and the `destination_selected`
flag set; with no match return the state unchanged.  The `**requirements`
dict spread can override the `budget` key (its schema has one) but never the
`destination` key (its schema has none, see `Requirements`). -/
def handleDestinationSelection (s : State) (selectedDestination : String) : State :=
  let toolResults := s.toolResults
  let recommendations := getRecs toolResults
  match recommendations.find?
      (fun dest => containsSubstr (toLowerStr dest.destination) (toLowerStr selectedDestination)) with
  | some selected =>
    let requirements := s.metadata.requirements
    let userPrefs : Prefs :=
      { destination := some selected.destination
        budget := match requirements.budget with
          | some b => some (.str b)
          | none => some (.num selected.estimatedDailyBudget)
        familyFriendly := some (decide (7 < selected.familyFriendlyScore))
        requirements := requirements }
    { messages := s.messages
      plan := none
      currentItinerary := none
      userPreferences := userPrefs
      nextAgent := "PLANNER"
      toolResults := toolResults
      metadata := { s.metadata with
        preplannerPhase := false
        destinationSelected := true
        selectedDestination := some selected }
      autonomousExecution := false }
  | none => s

/-! ## Token resolution (src/core/follow_up.py, handle_user_selection) -/

/-- The batch scanned by `handle_user_selection` (follow_up.py lines
387-392): the `suggestions` kwargs of the most recent message that carries
one, else the empty list. -/
def lastOffered (s : State) : List Suggestion :=
  match s.messages.reverse.find? (fun m => m.suggestions.isSome) with
  | some m => m.suggestions.getD []
  | none => []

/-- `handle_user_selection(state, token)` (follow_up.py lines 371-476).
Token not found in the last offered batch: return the state unchanged
(lines 401-403).  D-token destination selection: apply
`handle_destination_selection` and append the synthetic user message.
D-token refine: rebuild the state with the preplanner flag set.  Other
tokens: direct-route to the suggestion's stored agent, falling back to the
registry and then to "PLANNER".  The rebuilt states list the GraphState keys
explicitly, so the `autonomous_execution` key is dropped (reads of it
default to False afterwards). -/
def handleUserSelection (s : State) (token : String) : State :=
  let suggestions := lastOffered s
  match suggestions.find? (fun sug => sug.token = token) with
  | none => s
  | some selectedSuggestion =>
    if startsWithStr token "D" && selectedSuggestion.action = "select_destination" then
      let destinationName := selectedSuggestion.destination.getD ""
      let userMessage := Message.mkHumanSel
        ("I'd like to go to " ++ destinationName) token
      let updated := handleDestinationSelection s destinationName
      { updated with messages := s.messages ++ [userMessage] }
    else if startsWithStr token "D" && selectedSuggestion.action = "refine_search" then
      { messages := s.messages ++
          [Message.mkHumanSel "I'd like to see different destination options" token]
        plan := s.plan
        currentItinerary := s.currentItinerary
        userPreferences := s.userPreferences
        nextAgent := ""
        toolResults := s.toolResults
        metadata := { s.metadata with preplannerPhase := true }
        autonomousExecution := false }
    else
      let actionName := selectedSuggestion.action
      let stored := match selectedSuggestion.agent with
        | some a => if a = "" then none else some a
        | none => none
      let fromRegistry :=
        (ACTION_REGISTRY.find? (fun e => e.id = actionName)).map (fun e => e.agent)
      let targetAgent := (stored <|> fromRegistry).getD "PLANNER"
      { messages := s.messages ++
          [Message.mkHumanSel ("I'd like to: " ++ selectedSuggestion.description) token]
        plan := s.plan
        currentItinerary := s.currentItinerary
        userPreferences := s.userPreferences
        nextAgent := targetAgent
        toolResults := s.toolResults
        metadata := s.metadata
        autonomousExecution := false }

/-! ## Flight handler (src/agents/flight_agent.py, flight_agent_node) -/

/-- `flight_agent_node(state)` (flight_agent.py lines 152-214).  The body up
to the return is dominated by external work (parameter extraction with
real-time dates, the Amadeus/mock search, best-flight scoring over floats),
modelled by the oracle `attempt`: `none` models an exception anywhere in the
`try` body (caught by the node's `except`, whose delta carries no
`tool_results` key); `some (results, sel)` carries the search payload and —
read only in autonomous mode — the `select_best_flight` outcome, where
`none` is Python `None` (stored as such under "selected_flight").  The
returned delta spreads the old `tool_results` and overwrites only the keys
this handler owns. -/
def flightAgentNode (s : State)
    (attempt : Option (Payload × Option Payload)) : Delta :=
  match attempt with
  | none =>
    { messages := some (s.messages ++ [Message.mkAi "Flight search error"]) }
  | some (flightResults, sel) =>
    if s.autonomousExecution then
      { messages := some (s.messages ++ [Message.mkAi "Found flight options (autonomous)"])
        toolResults := some
          ((s.toolResults.insert "flight_search" flightResults).insert
            "selected_flight" (sel.getD .pynone)) }
    else
      { messages := some (s.messages ++ [Message.mkAi "Found flight options"])
        toolResults := some (s.toolResults.insert "flight_search" flightResults) }

/-! ## Graph wiring (src/core/graph.py) -/

/-- The nodes registered by `build_graph` (graph.py lines 156-164). -/
inductive NodeName where
  | router
  | destinationPlanner
  | planner
  | plannerExecution
  | reasoning
  | flight
  | hotel
  | activity
  | itinerary
deriving DecidableEq, Repr

/-- `route_after_router(state)` (graph.py lines 24-49): map the state's
`next_agent` (upper-cased) through the static route map, defaulting to the
terminal edge; `none` is the END edge. -/
def routeAfterRouter (s : State) : Option NodeName :=
  let nextAgent := toUpperStr s.nextAgent
  if nextAgent = "DESTINATION_PLANNER" then some .destinationPlanner
  else if nextAgent = "PLANNER" then some .planner
  else if nextAgent = "FLIGHT" then some .flight
  else if nextAgent = "HOTEL" then some .hotel
  else if nextAgent = "ACTIVITY" then some .activity
  else if nextAgent = "ITINERARY" then some .itinerary
  else if nextAgent = "REASONING" then some .reasoning
  else none

/-- `route_after_destination_planner` (graph.py lines 52-71). -/
def routeAfterDestinationPlanner (s : State) : Option NodeName :=
  if s.metadata.destinationSelected then some .router else none

/-- `route_after_planner` (graph.py lines 74-91). -/
def routeAfterPlanner (s : State) : Option NodeName :=
  match s.plan with
  | some plan => if plan.steps.isEmpty then some .reasoning else some .plannerExecution
  | none => some .reasoning

/-- `route_after_reasoning` (graph.py lines 122-140): back to the router
when `next_agent` is a non-empty value other than "END". -/
def routeAfterReasoning (s : State) : Option NodeName :=
  let nextAgent := toUpperStr s.nextAgent
  if nextAgent ≠ "" && nextAgent ≠ "END" then some .router else none

/-- The conditional-edge resolver of the compiled graph (graph.py lines
169-234): source node plus post-merge state to next node, `none` = END.
`planner_execution` and every specialized agent route unconditionally to
`reasoning` (lines 94-119). -/
def edgeResolver (n : NodeName) (s : State) : Option NodeName :=
  match n with
  | .router => routeAfterRouter s
  | .destinationPlanner => routeAfterDestinationPlanner s
  | .planner => routeAfterPlanner s
  | .plannerExecution => some .reasoning
  | .reasoning => routeAfterReasoning s
  | .flight => some .reasoning
  | .hotel => some .reasoning
  | .activity => some .reasoning
  | .itinerary => some .reasoning

/-- The oracle bundle for one graph invocation: classifier replies for the
router and the validator, the flight handler's external attempt, and the
deltas of the remaining (out-of-scope) handler nodes. -/
structure Oracles where
  routerClassify : Option String := none
  reasoningClassify : Option ReasoningResult := none
  flightAttempt : Option (Payload × Option Payload) := none
  handlerDelta : NodeName → State → Delta := fun _ _ => {}

/-- Dispatch one registered node (graph.py lines 156-164): the router, the
validator and the flight handler run their embedded bodies; the remaining
nodes are out-of-scope handlers supplied by the oracle bundle. -/
def nodeImpl (o : Oracles) : NodeName → State → Delta
  | .router, s => routerNode s o.routerClassify
  | .reasoning, s => reasoningNode s o.reasoningClassify
  | .flight, s => flightAgentNode s o.flightAttempt
  | n, s => o.handlerDelta n s

/-- The compiled graph's run loop: execute the current node, merge its delta,
follow the conditional edge; stop on the END edge or when the step budget
(LangGraph's recursion limit) runs out.  Returns the final state and the
list of nodes executed, in order. -/
def graphRun (o : Oracles) : Nat → NodeName → State → State × List NodeName
  | 0, _, s => (s, [])
  | fuel + 1, n, s =>
    let merged := applyDelta s (nodeImpl o n s)
    match edgeResolver n merged with
    | none => (merged, [n])
    | some next =>
      let rest := graphRun o fuel next merged
      (rest.1, n :: rest.2)

/-- `graph.invoke(state)`: `build_graph` sets the entry point to "router"
(graph.py line 167), so every invocation starts there regardless of the
state's `next_agent`. -/
def graphInvoke (o : Oracles) (fuel : Nat) (s : State) : State × List NodeName :=
  graphRun o fuel .router s

/-! ## Top-level orchestration (src/main.py, ItineraryPlannerSystem) -/

/-- `_extract_response(state)` (main.py lines 160-170): the content of the
last AI message, with the source's two fallback strings. -/
def extractResponse (s : State) : String :=
  if s.messages.isEmpty then "No response generated."
  else
    match s.messages.reverse.find? (fun m => m.role = Role.ai) with
    | some m => m.content
    | none => "Processing complete. Please review the itinerary above."

/-- What `process_query` / `handle_suggestion_selection` hand back to the
caller: `ok` carries the response text, the fresh suggestion batch and the
final session State; `err` is the error dict built in the `except` arms
(error string, apology response when present, suggestions when present) —
it carries no State and no session metadata. -/
inductive QueryResult where
  | ok (response : String) (suggestions : List Suggestion) (finalState : State)
  | err (errMsg : String) (response : Option String) (suggestions : List Suggestion)

/-- The State a caller gets back, when one comes back at all. -/
def QueryResult.stateOf : QueryResult → Option State
  | .ok _ _ finalState => some finalState
  | .err _ _ _ => none

/-- `ItineraryPlannerSystem.process_query` (main.py lines 31-97) for an
existing session.  `invokeGraph` is `self.graph.invoke(state,
config={"recursion_limit": 50})`: `.ok` is a normal completion, `.error e`
models the call raising — in particular LangGraph's recursion error when
the 50-step ceiling is reached before a terminal edge.  `followUp` is
`generate_follow_up_suggestions` (it calls the LLM, hence an oracle here).
The `except` arm (lines 90-97) turns any raise into an error payload with
the fixed apology text and an empty suggestion list. -/
def processQuery (session : State) (query : String)
    (invokeGraph : State → Except String State)
    (followUp : State → FollowUpResult) : QueryResult :=
  let state := { session with messages := session.messages ++ [{ role := .human, content := query }] }
  match invokeGraph state with
  | .error e =>
    .err e (some "I encountered an error processing your request. Please try again.") []
  | .ok finalState =>
    let followUpResult := followUp finalState
    let finalState := { finalState with
      messages := finalState.messages ++ [followUpResult.message] }
    .ok (extractResponse finalState) followUpResult.suggestions finalState

/-- `ItineraryPlannerSystem.handle_suggestion_selection` (main.py lines
99-158) for an existing session: resolve the token, re-invoke the graph,
regenerate suggestions; the `except` arm (lines 152-158) turns any raise
into an error payload with the fixed apology text and no suggestion list. -/
def handleSuggestionSelection (session : State) (token : String)
    (invokeGraph : State → Except String State)
    (followUp : State → FollowUpResult) : QueryResult :=
  let updatedState := handleUserSelection session token
  match invokeGraph updatedState with
  | .error e =>
    .err e (some "I encountered an error processing your selection. Please try again.") []
  | .ok finalState =>
    let followUpResult := followUp finalState
    let finalState := { finalState with
      messages := finalState.messages ++ [followUpResult.message] }
    .ok (extractResponse finalState) followUpResult.suggestions finalState

/-! ## Shared helper lemmas and concrete fixtures -/

/-- One graph invocation with a positive step budget always executes the
entry-point node "router" first (graph.py line 167). -/
theorem graphRun_head (o : Oracles) (fuel : Nat) (n : NodeName) (s : State) :
    (graphRun o (fuel + 1) n s).2.head? = some n := by
  unfold graphRun
  cases h : edgeResolver n (applyDelta s (nodeImpl o n s)) <;> simp [h]

/-- Every suggestion emitted by `tokenizeSuggestions` matches an available
action with the same action id. -/
theorem mem_tokenizeSuggestions {available : List AvailAction}
    {suggested : List SuggestedAction} {sug : Suggestion}
    (h : sug ∈ tokenizeSuggestions available suggested) :
    ∃ a ∈ available, a.action = sug.action := by
  unfold tokenizeSuggestions at h
  rw [List.mem_filterMap] at h
  obtain ⟨p, _, hf⟩ := h
  cases hfind : available.find? (fun a => a.action = p.2.action) with
  | none => rw [hfind] at hf; exact absurd hf (by simp)
  | some a =>
    rw [hfind] at hf
    have ha : a ∈ available := List.mem_of_find?_eq_some hfind
    have hpred : a.action = p.2.action := by
      have := List.find?_some hfind
      simpa using this
    refine ⟨a, ha, ?_⟩
    cases hf
    exact hpred

/-- Every available action comes from a registry entry whose availability
predicate holds on the state. -/
theorem mem_getAvailableActions {s : State} {a : AvailAction}
    (h : a ∈ getAvailableActions s) :
    ∃ e ∈ ACTION_REGISTRY, e.id = a.action ∧ e.availableWhen s = true := by
  unfold getAvailableActions at h
  rw [List.mem_map] at h
  obtain ⟨e, he, rfl⟩ := h
  rw [List.mem_filter] at he
  exact ⟨e, he.1, rfl, he.2⟩

/-- A session state whose validation counter already reached the cap. -/
def stateIter2 : State :=
  { messages := [Message.mkAi "results ready"]
    metadata := { reasoningIterations := 2 } }

/-- A fresh session state arriving at the validator for the first time. -/
def stateIter0 : State :=
  { messages := [Message.mkAi "results ready"] }

/-! ## C10 -/

/-- C10: on a state with an empty message history, `router_node` returns
exactly the delta `{"next_agent": "END"}` — no message is appended and no
classifier output can change this (router.py lines 42-46). -/
theorem router_empty_history_total (s : State) (classify : Option String)
    (h : s.messages = []) :
    routerNode s classify = ({ nextAgent := some "END" } : Delta) := by
  unfold routerNode
  rw [h]
  rfl

/-- C10 witness: the empty initial state. -/
theorem router_empty_history_total_witness :
    (({} : State)).messages = [] ∧
    routerNode {} none = ({ nextAgent := some "END" } : Delta) :=
  ⟨rfl, router_empty_history_total {} none rfl⟩

/-! ## C1 -/

/-- C1: once the session metadata records at least
`MAX_REASONING_ITERATIONS` (= 2) validation iterations, `reasoning_node`
returns the same delta for every classifier outcome (the decision is taken
before the classifier is consulted), that delta's routing directive is the
terminal sentinel "END", and its metadata carries the forced-end flag
(reasoning.py lines 42-54). -/
theorem validator_forced_end (s : State) (classify : Option ReasoningResult)
    (h : MAX_REASONING_ITERATIONS ≤ s.metadata.reasoningIterations) :
    reasoningNode s classify = reasoningNode s none ∧
    (reasoningNode s classify).nextAgent = some "END" ∧
    (reasoningNode s classify).metadata =
      some { s.metadata with reasoningForcedEnd := true } := by
  simp only [reasoningNode, if_pos h]
  exact ⟨trivial, trivial, trivial⟩

/-- C1 witness: a state with the counter at the cap and a classifier verdict
demanding more work; the forced end wins. -/
theorem validator_forced_end_witness :
    MAX_REASONING_ITERATIONS ≤ stateIter2.metadata.reasoningIterations ∧
    (reasoningNode stateIter2 (some { nextAction := some "FLIGHT" }) =
        reasoningNode stateIter2 none ∧
      (reasoningNode stateIter2 (some { nextAction := some "FLIGHT" })).nextAgent =
        some "END" ∧
      (reasoningNode stateIter2 (some { nextAction := some "FLIGHT" })).metadata =
        some { stateIter2.metadata with reasoningForcedEnd := true }) :=
  ⟨by decide,
   validator_forced_end stateIter2 (some { nextAction := some "FLIGHT" }) (by decide)⟩

/-! ## C3 -/

/-- C3 counterexample: the validation counter is NOT incremented on every
path.  On the classifier-failure path (delta without a `metadata` key,
reasoning.py lines 161-168) and on the forced-end path (metadata spread
without an increment, lines 45-54), the merged state keeps the old counter
value instead of old + 1. -/
theorem validator_increment_counterexample :
    (applyDelta stateIter0 (reasoningNode stateIter0 none)).metadata.reasoningIterations ≠
      stateIter0.metadata.reasoningIterations + 1 ∧
    (applyDelta stateIter2 (reasoningNode stateIter2 (some {}))).metadata.reasoningIterations ≠
      stateIter2.metadata.reasoningIterations + 1 := by
  decide

/-- C3 amended: the validation counter is incremented exactly once per
`reasoning_node` execution on the successful-classifier path (counter below
the cap and a parseable classifier reply), and is left unchanged on the
forced-end and classifier-failure paths; no path ever decreases it. -/
theorem validator_increment_amended (s : State) (classify : Option ReasoningResult) :
    (applyDelta s (reasoningNode s classify)).metadata.reasoningIterations =
      (if s.metadata.reasoningIterations < MAX_REASONING_ITERATIONS ∧ classify.isSome
       then s.metadata.reasoningIterations + 1
       else s.metadata.reasoningIterations) ∧
    s.metadata.reasoningIterations ≤
      (applyDelta s (reasoningNode s classify)).metadata.reasoningIterations := by
  unfold reasoningNode applyDelta
  by_cases h : MAX_REASONING_ITERATIONS ≤ s.metadata.reasoningIterations
  · simp [h, Nat.not_lt.mpr h]
  · cases classify with
    | none => simp [h]
    | some r => simp [h, Nat.lt_of_not_le h]

/-! ## C9 -/

/-- C9: merging the flight handler's delta a second time leaves every
`tool_results` key with the same value as merging it once, and a single
merge changes no key other than the two the handler writes
("flight_search" and, in autonomous mode, "selected_flight")
(flight_agent.py lines 181-206; LangGraph whole-key replacement). -/
theorem flight_delta_idempotent_and_framed (s : State)
    (attempt : Option (Payload × Option Payload)) (k : String) :
    ((applyDelta (applyDelta s (flightAgentNode s attempt)) (flightAgentNode s attempt)).toolResults k =
      (applyDelta s (flightAgentNode s attempt)).toolResults k) ∧
    (k ≠ "flight_search" → k ≠ "selected_flight" →
      (applyDelta s (flightAgentNode s attempt)).toolResults k = s.toolResults k) := by
  constructor
  · cases h : (flightAgentNode s attempt).toolResults with
    | none => simp [applyDelta, h]
    | some tr => simp [applyDelta, h]
  · intro hk1 hk2
    cases attempt with
    | none => simp [flightAgentNode, applyDelta]
    | some p =>
      cases hauto : s.autonomousExecution <;>
        simp [flightAgentNode, applyDelta, hauto, Dict.insert, hk1, hk2]

/-- C9 witness: a state already holding a hotel result; the flight handler's
delta applied twice leaves the stored hotel result untouched and equal to a
single application. -/
theorem flight_delta_idempotent_witness :
    (("hotel_search" : String) ≠ "flight_search" ∧ ("hotel_search" : String) ≠ "selected_flight") ∧
    (((applyDelta (applyDelta
        { toolResults := Dict.empty.insert "hotel_search" (.raw 7) }
        (flightAgentNode { toolResults := Dict.empty.insert "hotel_search" (.raw 7) }
          (some (.raw 3, none))))
        (flightAgentNode { toolResults := Dict.empty.insert "hotel_search" (.raw 7) }
          (some (.raw 3, none)))).toolResults "hotel_search" =
      (applyDelta { toolResults := Dict.empty.insert "hotel_search" (.raw 7) }
        (flightAgentNode { toolResults := Dict.empty.insert "hotel_search" (.raw 7) }
          (some (.raw 3, none)))).toolResults "hotel_search") ∧
      (applyDelta { toolResults := Dict.empty.insert "hotel_search" (.raw 7) }
        (flightAgentNode { toolResults := Dict.empty.insert "hotel_search" (.raw 7) }
          (some (.raw 3, none)))).toolResults "hotel_search" =
      ({ toolResults := Dict.empty.insert "hotel_search" (.raw 7) } : State).toolResults "hotel_search") :=
  ⟨⟨by decide, by decide⟩,
   (flight_delta_idempotent_and_framed
      { toolResults := Dict.empty.insert "hotel_search" (.raw 7) }
      (some (.raw 3, none)) "hotel_search").1,
   (flight_delta_idempotent_and_framed
      { toolResults := Dict.empty.insert "hotel_search" (.raw 7) }
      (some (.raw 3, none)) "hotel_search").2 (by decide) (by decide)⟩

/-! ## C2 -/

/-- A session that has just been offered a one-token batch resolving to the
FLIGHT handler (the shape `generate_follow_up_suggestions` produces after a
flight search). -/
def sessionAfterOffer : State :=
  { messages :=
      [Message.mkAi "Found 3 flight options",
       { role := .ai
         content := "\n💡 What would you like to do next?\n"
         suggestions := some
           [{ token := "A1", action := "review_flights", agent := some "FLIGHT",
              description := "Review the 3 flight options we found", priority := 1 }] }]
    toolResults := Dict.empty.insert "flight_search" (.raw 0) }

/-- The state `handle_user_selection` hands to the next graph invocation
after the user picks token "A1". -/
def selectedState : State := handleUserSelection sessionAfterOffer "A1"

/-- A classifier that re-classifies the synthetic selection message as a
hotel request (free-text re-classification of an already-disambiguated
choice, exactly the misrouting the spec warns about). -/
def reclassifyOracles : Oracles :=
  { routerClassify := some "HOTEL", reasoningClassify := none }

/-- C2 (bug evidence): resolving the offered token does set
`next_agent = "FLIGHT"` for a direct jump (follow_up.py line 471, commented
"Direct routing to target agent (no LLM re-evaluation needed)"), but
`build_graph` fixes the entry point to the router (graph.py line 167), so
the following invocation executes the router node first; the router
re-classifies and its decision overwrites the pre-resolved target — here the
executed nodes are router, hotel, reasoning, and the flight handler never
runs at all. -/
theorem token_selection_reinvokes_router :
    selectedState.nextAgent = "FLIGHT" ∧
    (graphInvoke reclassifyOracles 5 selectedState).2 =
      [NodeName.router, NodeName.hotel, NodeName.reasoning] := by
  decide

/-! ## C4 -/

/-- The error string carried by a `QueryResult.err`. -/
def QueryResult.errOf : QueryResult → Option String
  | .ok _ _ _ => none
  | .err e _ _ => some e

/-- The user-facing response text carried by a result. -/
def QueryResult.responseOf : QueryResult → Option String
  | .ok response _ _ => some response
  | .err _ response _ => response

/-- A minimal existing session. -/
def baseSession : State := { messages := [Message.mkAi "Welcome"] }

/-- A graph invocation that hits the 50-step recursion limit: LangGraph
raises `GraphRecursionError`, modelled as the `.error` outcome. -/
def ceilingRun : State → Except String State :=
  fun _ => .error "GraphRecursionError: recursion limit of 50 reached"

/-- A follow-up generator (irrelevant on the error path). -/
def noFollowUp : State → FollowUpResult :=
  fun _ => { suggestions := [], message := Message.mkAi "n/a" }

/-- C4 counterexample: when the step ceiling is reached the caller does NOT
receive a State with a forced-termination flag — `graph.invoke` raises, the
`except` arm of `process_query` (main.py lines 90-97) swallows the exception
and returns an error payload that carries no State at all (hence no
session-metadata flag of any kind). -/
theorem step_ceiling_counterexample :
    (processQuery baseSession "plan a trip to Japan" ceilingRun noFollowUp).stateOf = none ∧
    (processQuery baseSession "plan a trip to Japan" ceilingRun noFollowUp).errOf =
      some "GraphRecursionError: recursion limit of 50 reached" := ⟨rfl, rfl⟩

/-- C4 amended: when the graph invocation raises (in particular on
step-ceiling exhaustion), `process_query` and `handle_suggestion_selection`
never let the exception escape: the caller gets an error payload carrying
the exception text, a fixed apology response and an empty suggestion list —
but no State is returned and no forced-termination flag is written
(main.py lines 90-97 and 152-158). -/
theorem step_ceiling_amended (session : State) (query token e : String)
    (followUp : State → FollowUpResult) :
    (processQuery session query (fun _ => .error e) followUp).stateOf = none ∧
    (processQuery session query (fun _ => .error e) followUp).errOf = some e ∧
    (processQuery session query (fun _ => .error e) followUp).responseOf =
      some "I encountered an error processing your request. Please try again." ∧
    (handleSuggestionSelection session token (fun _ => .error e) followUp).stateOf = none ∧
    (handleSuggestionSelection session token (fun _ => .error e) followUp).errOf = some e ∧
    (handleSuggestionSelection session token (fun _ => .error e) followUp).responseOf =
      some "I encountered an error processing your selection. Please try again." :=
  ⟨rfl, rfl, rfl, rfl, rfl, rfl⟩

/-! ## C6 -/

/-- The destination-help test of router.py lines 54-62, on the lowered
content of the last message. -/
def needsHelp (s : State) (messageContent : String) : Bool :=
  (s.userPreferences.destination.isNone &&
    helpPhrases.any (fun p => containsSubstr messageContent p)) ||
  s.metadata.preplannerPhase

/-- A gibberish classifier reply outside the valid-agent enum. -/
def gibberishReply : String := "I think HOTEL sounds nice"

/-- A plain query state that reaches the router's classifier branch. -/
def plainQueryState : State :=
  { messages := [{ role := .human, content := "Book a flight to Tokyo" }] }

/-- C6 counterexample: when the classifier call RAISES, the router does not
recover to the default planning handler — its `except` arm (router.py lines
139-146) sets the directive to the terminal sentinel "END" instead. -/
theorem router_exception_counterexample :
    (routerNode plainQueryState none).nextAgent = some "END" ∧
    (routerNode plainQueryState none).nextAgent ≠ some "PLANNER" := by
  decide

/-- C6 amended: classifier failure is never propagated, but the two failure
modes recover differently in the router: a malformed (out-of-enum) reply is
corrected to the default planning handler "PLANNER" (router.py lines
121-124), while a raising classifier call makes the router return the
terminal "END" with a diagnostic message (lines 139-146); the validator
recovers as Satisfied — directive "END" — on every classifier failure
(reasoning.py lines 161-168). -/
theorem classifier_failure_amended (s : State) (m : Message) (reply : String)
    (hlast : s.messages.getLast? = some m)
    (hsel : s.metadata.destinationSelected = false)
    (hhelp : needsHelp s (toLowerStr m.content) = false)
    (hbad : validAgents.contains (toUpperStr (trimStr reply)) = false) :
    (routerNode s (some reply)).nextAgent = some "PLANNER" ∧
    (routerNode s none).nextAgent = some "END" ∧
    ∀ s' : State, (reasoningNode s' none).nextAgent = some "END" := by
  have hhelp' : ((s.userPreferences.destination.isNone &&
      helpPhrases.any (fun p => containsSubstr (toLowerStr m.content) p)) ||
      s.metadata.preplannerPhase) = false := hhelp
  refine ⟨?_, ?_, ?_⟩
  · simp only [routerNode, hlast, hsel, hhelp', if_false, Bool.false_eq_true, hbad]
  · simp only [routerNode, hlast, hsel, hhelp', if_false, Bool.false_eq_true]
  · intro s'
    simp only [reasoningNode]
    by_cases h : MAX_REASONING_ITERATIONS ≤ s'.metadata.reasoningIterations <;>
      simp [h]

/-- C6 witness: a plain flight query, a gibberish classifier reply. -/
theorem classifier_failure_amended_witness :
    (plainQueryState.messages.getLast? =
        some { role := .human, content := "Book a flight to Tokyo" } ∧
      plainQueryState.metadata.destinationSelected = false ∧
      needsHelp plainQueryState
        (toLowerStr ({ role := .human, content := "Book a flight to Tokyo" : Message }).content) = false ∧
      validAgents.contains (toUpperStr (trimStr gibberishReply)) = false) ∧
    ((routerNode plainQueryState (some gibberishReply)).nextAgent = some "PLANNER" ∧
      (routerNode plainQueryState none).nextAgent = some "END" ∧
      ∀ s' : State, (reasoningNode s' none).nextAgent = some "END") :=
  ⟨⟨by decide, by decide, by decide, by decide⟩,
   classifier_failure_amended plainQueryState
      { role := .human, content := "Book a flight to Tokyo" }
      gibberishReply (by decide) (by decide) (by decide) (by decide)⟩

/-! ## C7 -/

/-- C7 amended: a token absent from the last offered batch makes
`handle_user_selection` return the state entirely unchanged (follow_up.py
lines 401-403) — so it cannot raise and performs no directive jump — and the
next graph invocation starts at the router as for any invocation; the
stale token itself is discarded rather than appended as a new user
message. -/
theorem unknown_token_fail_soft (s : State) (token : String)
    (h : (lastOffered s).find? (fun sug => sug.token = token) = none) :
    handleUserSelection s token = s ∧
    ∀ (o : Oracles) (fuel : Nat),
      (graphInvoke o (fuel + 1) (handleUserSelection s token)).2.head? =
        some NodeName.router := by
  have hsel : handleUserSelection s token = s := by
    simp only [handleUserSelection, h]
  exact ⟨hsel, fun o fuel => graphRun_head o fuel .router _⟩

/-- A session state offering a three-token batch A1-A3. -/
def offeredSession : State :=
  { messages :=
      [{ role := .ai
         content := "\n💡 What would you like to do next?\n"
         suggestions := some
           [{ token := "A1", action := "search_flights", agent := some "FLIGHT",
              description := "Search for flight options to {destination}", priority := 1 },
            { token := "A2", action := "search_hotels", agent := some "HOTEL",
              description := "Find accommodation in {destination}", priority := 2 },
            { token := "A3", action := "search_activities", agent := some "ACTIVITY",
              description := "Find activities and attractions in {destination}",
              priority := 3 }] }] }

/-- C7 counterexample: the unseen 4th token is NOT turned into an ordinary
new user message — the history is returned unchanged, no message carrying
the raw input is appended. -/
theorem unknown_token_counterexample :
    (handleUserSelection offeredSession "A4").messages.length =
      offeredSession.messages.length ∧
    ¬ ((handleUserSelection offeredSession "A4").messages.length =
        offeredSession.messages.length + 1) := by
  decide

/-- C7 witness: the three-token batch and the unseen token "A4". -/
theorem unknown_token_fail_soft_witness :
    (lastOffered offeredSession).find? (fun sug => sug.token = "A4") = none ∧
    (handleUserSelection offeredSession "A4" = offeredSession ∧
      ∀ (o : Oracles) (fuel : Nat),
        (graphInvoke o (fuel + 1) (handleUserSelection offeredSession "A4")).2.head? =
          some NodeName.router) :=
  ⟨by decide, unknown_token_fail_soft offeredSession "A4" (by decide)⟩

/-! ## C5 -/

/-- A session in the destination-discovery (preplanner) phase with one
stored recommendation. -/
def preplannerState : State :=
  { messages := [Message.mkAi "recommendations ready"]
    toolResults := Dict.empty.insert "destination_recommendations"
      (.recs [{ destination := "Paris", country := "France" }])
    metadata := { preplannerPhase := true } }

/-- C5 counterexample: in the preplanner phase
`generate_follow_up_suggestions` offers actions ("select_destination",
"refine_search") that are not entries of the static `ACTION_REGISTRY` at
all, for every classifier output (follow_up.py lines 225-228 and 121-206) —
so not every offered suggestion is a registry action with a satisfied
availability predicate. -/
theorem suggestion_registry_counterexample :
    ((generateFollowUpSuggestions preplannerState (some [])).suggestions.map
        (fun sug => sug.action)) = ["select_destination", "refine_search"] ∧
    (ACTION_REGISTRY.map (fun e => e.id)).contains "select_destination" = false ∧
    (ACTION_REGISTRY.map (fun e => e.id)).contains "refine_search" = false := by
  decide

/-- C5 amended: outside the preplanner phase and with a well-formed
classifier reply, every suggestion in the produced batch carries an action
drawn from the static `ACTION_REGISTRY` whose availability predicate holds
on the state, and classifier proposals outside the precomputed available
set are discarded (follow_up.py lines 298-314); the preplanner path offers
destination tokens outside the registry and the classifier-failure path
offers a fixed default batch without availability checks. -/
theorem follow_up_actions_from_registry (s : State)
    (suggested : List SuggestedAction)
    (hpre : s.metadata.preplannerPhase = false) :
    ∀ sug ∈ (generateFollowUpSuggestions s (some suggested)).suggestions,
      ∃ e ∈ ACTION_REGISTRY, e.id = sug.action ∧ e.availableWhen s = true := by
  intro sug hsug
  simp only [generateFollowUpSuggestions, hpre, Bool.false_eq_true, if_false] at hsug
  split at hsug
  · simp at hsug
  · obtain ⟨a, ha, haeq⟩ := mem_tokenizeSuggestions hsug
    obtain ⟨e, he, heid, hav⟩ := mem_getAvailableActions ha
    exact ⟨e, he, heid.trans haeq, hav⟩

/-- A fresh non-preplanner session with no results yet. -/
def freshFollowUpState : State := { messages := [Message.mkAi "done"] }

/-- C5 witness: the classifier proposes one registry action and one invented
action; every offered suggestion comes from the registry with its
availability predicate satisfied (the invented one is discarded). -/
theorem follow_up_actions_from_registry_witness :
    freshFollowUpState.metadata.preplannerPhase = false ∧
    ∀ sug ∈ (generateFollowUpSuggestions freshFollowUpState
        (some [{ action := "search_flights" }, { action := "bogus_action" }])).suggestions,
      ∃ e ∈ ACTION_REGISTRY, e.id = sug.action ∧ e.availableWhen freshFollowUpState = true :=
  ⟨rfl, follow_up_actions_from_registry freshFollowUpState
    [{ action := "search_flights" }, { action := "bogus_action" }] rfl⟩

/-! ## C8 -/

/-- C8 amended: in the destination-discovery phase, resolving a
destination-selection token writes the destination of the FIRST stored
recommendation whose name contains the chosen name as a case-insensitive
substring (destination_planner.py line 523) — which is the chosen
destination itself whenever no earlier recommendation name contains it —
sets the `destination_selected` flag, and the router's next execution on
the resulting state routes to "PLANNER" regardless of any classifier
output. -/
theorem destination_selection_amended (s : State) (token : String)
    (sug : Suggestion) (d : String) (rec : Destination)
    (hfind : (lastOffered s).find? (fun g => g.token = token) = some sug)
    (hD : startsWithStr token "D" = true)
    (hact : sug.action = "select_destination")
    (hdest : sug.destination = some d)
    (hmatch : (getRecs s.toolResults).find?
        (fun dest => containsSubstr (toLowerStr dest.destination) (toLowerStr d)) = some rec) :
    (handleUserSelection s token).userPreferences.destination = some rec.destination ∧
    (handleUserSelection s token).metadata.destinationSelected = true ∧
    ∀ classify, (routerNode (handleUserSelection s token) classify).nextAgent =
      some "PLANNER" := by
  have hcond : (startsWithStr token "D" && decide (sug.action = "select_destination")) = true := by
    simp [hD, hact]
  have hkey : handleUserSelection s token =
      { handleDestinationSelection s d with
        messages := s.messages ++
          [Message.mkHumanSel ("I'd like to go to " ++ d) token] } := by
    simp only [handleUserSelection, hfind, hcond, if_true, hdest, Option.getD_some]
  have hsel : (handleDestinationSelection s d).userPreferences.destination =
        some rec.destination ∧
      (handleDestinationSelection s d).metadata.destinationSelected = true := by
    constructor <;> simp only [handleDestinationSelection, hmatch]
  refine ⟨by rw [hkey]; exact hsel.1, by rw [hkey]; exact hsel.2, ?_⟩
  intro classify
  rw [hkey]
  simp only [routerNode, List.getLast?_concat]
  have hflag : (handleDestinationSelection s d).metadata.destinationSelected = true := hsel.2
  simp only [hflag, if_true]

/-- The stored recommendation list that exhibits substring shadowing. -/
def yorkRecs : List Destination :=
  [{ destination := "New York City", country := "USA" },
   { destination := "York", country := "England" }]

/-- A discovery-phase session holding the shadowing recommendations. -/
def yorkRecsState : State :=
  { messages := [Message.mkAi "requirements gathered"]
    toolResults := Dict.empty.insert "destination_recommendations" (.recs yorkRecs)
    metadata := { preplannerPhase := true } }

/-- The offer emitted for those recommendations (D1, D2, D99 tokens). -/
def yorkOffer : FollowUpResult := generateFollowUpSuggestions yorkRecsState none

/-- The session after the offer message is appended. -/
def yorkState : State :=
  { yorkRecsState with messages := yorkRecsState.messages ++ [yorkOffer.message] }

/-- C8 counterexample: the D2 token's destination "York" appears verbatim in
the stored recommendations, yet resolving it writes "New York City" into
the user preferences — the case-insensitive substring scan of
`handle_destination_selection` matches the earlier recommendation whose
name contains "York" (destination_planner.py lines 522-525). -/
theorem destination_selection_counterexample :
    yorkState.metadata.preplannerPhase = true ∧
    ((lastOffered yorkState).find? (fun g => g.token = "D2")).map
        (fun g => g.destination) = some (some "York") ∧
    "York" ∈ (getRecs yorkState.toolResults).map (fun dest => dest.destination) ∧
    (handleUserSelection yorkState "D2").userPreferences.destination =
      some "New York City" ∧
    (handleUserSelection yorkState "D2").userPreferences.destination ≠ some "York" := by
  decide

/-- A discovery-phase session with a single recommendation "Paris". -/
def parisState0 : State :=
  { messages := [Message.mkAi "requirements gathered"]
    toolResults := Dict.empty.insert "destination_recommendations"
      (.recs [{ destination := "Paris", country := "France" }])
    metadata := { preplannerPhase := true } }

/-- The offer emitted for the Paris recommendation. -/
def parisOffer : FollowUpResult := generateFollowUpSuggestions parisState0 none

/-- The session after the Paris offer message is appended. -/
def parisState : State :=
  { parisState0 with messages := parisState0.messages ++ [parisOffer.message] }

/-- C8 witness: selecting D1 = "Paris" (the unique match) writes "Paris"
into the preferences, flips the flag, and sends the router to PLANNER. -/
theorem destination_selection_amended_witness :
    ((lastOffered parisState).find? (fun g => g.token = "D1") =
        some { token := "D1", action := "select_destination",
               description := "Choose Paris, France", priority := 1,
               destination := some "Paris",
               destinationData := some { destination := "Paris", country := "France" } } ∧
      startsWithStr "D1" "D" = true ∧
      (getRecs parisState.toolResults).find?
        (fun dest => containsSubstr (toLowerStr dest.destination) (toLowerStr "Paris")) =
        some { destination := "Paris", country := "France" }) ∧
    ((handleUserSelection parisState "D1").userPreferences.destination = some "Paris" ∧
      (handleUserSelection parisState "D1").metadata.destinationSelected = true ∧
      ∀ classify, (routerNode (handleUserSelection parisState "D1") classify).nextAgent =
        some "PLANNER") :=
  ⟨⟨by decide, by decide, by decide⟩,
   destination_selection_amended parisState "D1"
     { token := "D1", action := "select_destination",
       description := "Choose Paris, France", priority := 1,
       destination := some "Paris",
       destinationData := some { destination := "Paris", country := "France" } }
     "Paris" { destination := "Paris", country := "France" }
     (by decide) (by decide) (by decide) (by decide) (by decide)⟩

end TravelPlanner
